import Mathlib

/-!
Shallow embedding of the goreq HTTP request builder (src/goreq.go).

The builder state `GoReq` mirrors the Go struct field for field.  Go maps
(`map[string]string`, `map[string]interface{}`) are modelled as association
lists with last-write-wins update (`setKV`); a Go map read that misses
returns the zero value, modelled by `headerGet` returning `""`.
`url.Values` is an ordered multimap, modelled as `List (String × List String)`.

External library calls (encoding/json decoding, net/url parsing, the HTTP
client itself) are not code of this repository; their outcome is passed to
the embedded operation as an explicitly classified argument
(`ParsedContent`, `StructParse`, ...), and the terminal call is embedded up
to the point where the request is handed to the client (`EndOutcome`).
-/

namespace Goreq

/-- Values stored in the Data map (Go: map[string]interface{}).  The bodies
produced by the JSON decoder with UseNumber are strings, arrays of strings,
json.Number (kept as its literal text), or anything else (bool, null,
nested object/array), which changeMapToURLValues skips. -/
inductive DataVal where
  | str (s : String)
  | arr (xs : List String)
  | num (n : String)
  | other
deriving DecidableEq, Repr

/-- Lookup in an association list (Go map read, returning the entry if present). -/
def getKV {α : Type} : List (String × α) → String → Option α
  | [], _ => none
  | (k, v) :: rest, key => if k = key then some v else getKV rest key

/-- Last-write-wins update of an association list (Go map assignment). -/
def setKV {α : Type} : List (String × α) → String → α → List (String × α)
  | [], key, v => [(key, v)]
  | (k, w) :: rest, key, v =>
      if k = key then (key, v) :: rest else (k, w) :: setKV rest key v

/-- Go map read of a string-valued map: a miss yields the zero value "". -/
def headerGet (h : List (String × String)) (k : String) : String :=
  (getKV h k).getD ""

/-- The Add method of url.Values: append one value to the list stored at a key. -/
def addMulti : List (String × List String) → String → String → List (String × List String)
  | [], k, v => [(k, [v])]
  | (k, vs) :: rest, key, v =>
      if k = key then (k, vs ++ [v]) :: rest else (k, vs) :: addMulti rest key v

/-- Cookie record (net/http Cookie, reduced to the fields the builder touches). -/
structure Cookie where
  name : String
  value : String
deriving DecidableEq, Repr

/-- Transport configuration owned by the builder (http.Transport fields the
builder writes: the custom Dial closure installed by Timeout, the TLS
config, and the proxy function).  Opaque function values are tracked by an
identity token. -/
structure Transport where
  dialTimeout : Option Nat := none
  tlsConfig : Option Nat := none
  proxy : Option String := none
deriving DecidableEq, Repr

/-- HTTP method constants from src/goreq.go lines 28-35. -/
def POST : String := "POST"

def GET : String := "GET"

def HEAD : String := "HEAD"

def PUT : String := "PUT"

def DELETE : String := "DELETE"

def PATCH : String := "PATCH"

/-- The GoReq builder state (src/goreq.go lines 38-55).  The http.Client and
the CheckRedirect function are external objects tracked by identity tokens;
the logger is not modelled. -/
structure GoReq where
  url : String
  method : String
  header : List (String × String)
  data : List (String × DataVal)
  formData : List (String × List String)
  queryData : List (String × List String)
  rawStringData : String
  rawBytesData : List Nat
  client : Option Nat
  checkRedirect : Option Nat
  transport : Transport
  cookies : List Cookie
  errors : List String
  basicAuth : String × String
  debug : Bool
deriving DecidableEq, Repr

/-- New (src/goreq.go lines 58-73): fresh builder with empty maps, nil
client, fresh empty transport, no cookies, nil errors. -/
def New : GoReq where
  url := ""
  method := ""
  header := []
  data := []
  formData := []
  queryData := []
  rawStringData := ""
  rawBytesData := []
  client := none
  checkRedirect := none
  transport := {}
  cookies := []
  errors := []
  basicAuth := ("", "")
  debug := false

/-- SetDebug (lines 76-79). -/
def GoReq.setDebug (gr : GoReq) (enable : Bool) : GoReq :=
  { gr with debug := enable }

/-- SetClient (lines 87-90). -/
def GoReq.setClient (gr : GoReq) (client : Nat) : GoReq :=
  { gr with client := some client }

/-- Reset (lines 103-114): clears Url, Method, Header, Data, FormData,
QueryData, RawStringData, RawBytesData, Cookies and Errors.  The remaining
fields (Client, CheckRedirect, Transport, BasicAuth, Debug, logger) are not
assigned. -/
def GoReq.reset (gr : GoReq) : GoReq :=
  { gr with
    url := ""
    method := ""
    header := []
    data := []
    formData := []
    queryData := []
    rawStringData := ""
    rawBytesData := []
    cookies := []
    errors := [] }

/-- Get (lines 116-121): sets Method and Url and assigns Errors = nil. -/
def GoReq.get (gr : GoReq) (targetUrl : String) : GoReq :=
  { gr with method := GET, url := targetUrl, errors := [] }

/-- Post (lines 123-128). -/
def GoReq.post (gr : GoReq) (targetUrl : String) : GoReq :=
  { gr with method := POST, url := targetUrl, errors := [] }

/-- Head (lines 130-135). -/
def GoReq.head (gr : GoReq) (targetUrl : String) : GoReq :=
  { gr with method := HEAD, url := targetUrl, errors := [] }

/-- Put (lines 137-142). -/
def GoReq.put (gr : GoReq) (targetUrl : String) : GoReq :=
  { gr with method := PUT, url := targetUrl, errors := [] }

/-- Delete (lines 144-149). -/
def GoReq.delete (gr : GoReq) (targetUrl : String) : GoReq :=
  { gr with method := DELETE, url := targetUrl, errors := [] }

/-- Patch (lines 151-156). -/
def GoReq.patch (gr : GoReq) (targetUrl : String) : GoReq :=
  { gr with method := PATCH, url := targetUrl, errors := [] }

/-- SetHeader (lines 165-168). -/
def GoReq.setHeader (gr : GoReq) (param value : String) : GoReq :=
  { gr with header := setKV gr.header param value }

/-- SetBasicAuth (lines 177-180). -/
def GoReq.setBasicAuth (gr : GoReq) (username password : String) : GoReq :=
  { gr with basicAuth := (username, password) }

/-- AddCookie (lines 183-186). -/
def GoReq.addCookie (gr : GoReq) (c : Cookie) : GoReq :=
  { gr with cookies := gr.cookies ++ [c] }

/-- AddCookies (lines 189-192). -/
def GoReq.addCookies (gr : GoReq) (cs : List Cookie) : GoReq :=
  { gr with cookies := gr.cookies ++ cs }

/-- ShortContentTypes (lines 195-204). -/
def ShortContentTypes : List (String × String) :=
  [ ("html", "text/html")
  , ("text", "text/plain")
  , ("json", "application/json")
  , ("xml", "application/xml")
  , ("urlencoded", "application/x-www-form-urlencoded")
  , ("form", "application/x-www-form-urlencoded")
  , ("form-data", "application/x-www-form-urlencoded")
  , ("stream", "application/octet-stream") ]

/-- ContentType (lines 225-231): a Go map read of ShortContentTypes yields
"" on a miss; if the alias expands to a non-empty media type the expansion
is stored, otherwise the input string is stored verbatim. -/
def GoReq.contentType (gr : GoReq) (typeStr : String) : GoReq :=
  let mapped := (getKV ShortContentTypes typeStr).getD ""
  let t := if mapped ≠ "" then mapped else typeStr
  { gr with header := setKV gr.header "Content-Type" t }

/-- Param (lines 315-318): QueryData.Add. -/
def GoReq.param (gr : GoReq) (key value : String) : GoReq :=
  { gr with queryData := addMulti gr.queryData key value }

/-- Outcome of classifying a string given to queryString (lines 294-310):
json.Unmarshal into map[string]string succeeds, or url.ParseQuery succeeds,
or both fail with a parse error.  The classification itself happens in the
Go standard library, outside this repository. -/
inductive QueryParse where
  | json (kvs : List (String × String))
  | form (pairs : List (String × List String))
  | fail (e : String)

/-- The Get method of url.Values: first value at the key, or "". -/
def multiGet (m : List (String × List String)) (k : String) : String :=
  ((getKV m k).getD []).headD ""

/-- The queryString helper (lines 294-310): JSON object keys are Added one
by one; otherwise each parsed form key k gets a single Add of
queryVal.Get(k), the first value only; otherwise the error is appended. -/
def GoReq.queryString (gr : GoReq) (parsed : QueryParse) : GoReq :=
  match parsed with
  | .json kvs =>
      { gr with queryData := kvs.foldl (fun q kv => addMulti q kv.1 kv.2) gr.queryData }
  | .form pairs =>
      { gr with queryData :=
          pairs.foldl (fun q kv => addMulti q kv.1 (multiGet pairs kv.1)) gr.queryData }
  | .fail e => { gr with errors := gr.errors ++ [e] }

/-- Timeout (lines 320-331): installs a custom dial closure on the
transport.  The closure only runs at execution; at build time no error is
appended. -/
def GoReq.timeout (gr : GoReq) (d : Nat) : GoReq :=
  { gr with transport := { gr.transport with dialTimeout := some d } }

/-- TLSClientConfig (lines 340-343). -/
def GoReq.tlsClientConfig (gr : GoReq) (config : Nat) : GoReq :=
  { gr with transport := { gr.transport with tlsConfig := some config } }

/-- Proxy (lines 361-371): parse failure appends an error; empty string
clears the proxy; otherwise the parsed URL is installed.  The url.Parse
outcome is passed in. -/
def GoReq.proxy (gr : GoReq) (proxyUrl : String) (parseErr : Option String) : GoReq :=
  match parseErr with
  | some e => { gr with errors := gr.errors ++ [e] }
  | none =>
      if proxyUrl = "" then { gr with transport := { gr.transport with proxy := none } }
      else { gr with transport := { gr.transport with proxy := some proxyUrl } }

/-- RedirectPolicy (lines 373-385): wraps and stores the policy (tracked by
an identity token); if a client is already set it is also installed there,
which does not change the builder fields modelled here. -/
def GoReq.redirectPolicy (gr : GoReq) (policy : Nat) : GoReq :=
  { gr with checkRedirect := some policy }

/-- Outcome of json.Marshal followed by json.Decode (UseNumber) of the
argument of SendStruct (lines 401-417): either some step failed with an
error, or a key/value map was decoded. -/
inductive StructParse where
  | err (e : String)
  | ok (kvs : List (String × DataVal))

/-- The JSON-object branch shared by SendStruct and SendMapString: every
decoded key overwrites the Data entry (gr.Data[k] = v). -/
def applyJsonObj (data : List (String × DataVal)) (kvs : List (String × DataVal)) :
    List (String × DataVal) :=
  kvs.foldl (fun d kv => setKV d kv.1 kv.2) data

/-- SendStruct (lines 401-417). -/
def GoReq.sendStruct (gr : GoReq) (parsed : StructParse) : GoReq :=
  match parsed with
  | .err e => { gr with errors := gr.errors ++ [e] }
  | .ok kvs => { gr with data := applyJsonObj gr.data kvs }

/-- Widening step of the form branch of SendMapString (lines 454-464):
strArray starts as the single new value; an old string array is appended
after it, an old string is appended after it, and any other old value
(json.Number included) contributes nothing. -/
def widenFormValue (old : DataVal) (newv : String) : DataVal :=
  match old with
  | .arr xs => .arr (newv :: xs)
  | .str s => .arr [newv, s]
  | _ => .arr [newv]

/-- One key of the form branch of SendMapString: formVal.Get(k) is the first
parsed value; an existing Data key is widened, a fresh key stores the plain
string (lines 452-469). -/
def formStep (data : List (String × DataVal)) (k : String) (vs : List String) :
    List (String × DataVal) :=
  let newv := vs.headD ""
  match getKV data k with
  | some old => setKV data k (widenFormValue old newv)
  | none => setKV data k (.str newv)

/-- All keys of the parsed form, in parse order. -/
def applyFormPairs (data : List (String × DataVal))
    (pairs : List (String × List String)) : List (String × DataVal) :=
  pairs.foldl (fun d kv => formStep d kv.1 kv.2) data

/-- Outcome of classifying the string given to SendMapString
(lines 445-451): the JSON decode with UseNumber succeeds with an object, or
url.ParseQuery succeeds, or both fail and the raw branch runs. -/
inductive ParsedContent where
  | json (kvs : List (String × DataVal))
  | form (pairs : List (String × List String))
  | raw

/-- SendMapString (lines 442-479): JSON branch overwrites Data keys; form
branch widens existing keys and defaults the Content-Type header to
form-urlencoded when it is unset; otherwise the whole input becomes the raw
string body. -/
def GoReq.sendMapString (gr : GoReq) (content : String) (parsed : ParsedContent) : GoReq :=
  match parsed with
  | .json kvs => { gr with data := applyJsonObj gr.data kvs }
  | .form pairs =>
      let withData := { gr with data := applyFormPairs gr.data pairs }
      if headerGet withData.header "Content-Type" = "" then
        { withData with
          header := setKV withData.header "Content-Type" "application/x-www-form-urlencoded" }
      else withData
  | .raw => { gr with rawStringData := content }

/-- SendRawString (lines 483-486). -/
def GoReq.sendRawString (gr : GoReq) (content : String) : GoReq :=
  { gr with rawStringData := content }

/-- SendRawBytes (lines 490-496): defaults the Content-Type header to
octet-stream when it is unset, then stores the bytes. -/
def GoReq.sendRawBytes (gr : GoReq) (content : List Nat) : GoReq :=
  let withHeader :=
    if headerGet gr.header "Content-Type" = "" then
      { gr with header := setKV gr.header "Content-Type" "application/octet-stream" }
    else gr
  { withHeader with rawBytesData := content }

/-- changeMapToURLValues (lines 498-517): flatten the Data map into form
pairs; a string adds one pair, a string array adds one pair per element, a
json.Number adds its literal text, anything else is skipped. -/
def changeMapToURLValues : List (String × DataVal) → List (String × String)
  | [] => []
  | (k, v) :: rest =>
      (match v with
       | .str s => [(k, s)]
       | .arr xs => xs.map (fun x => (k, x))
       | .num n => [(k, n)]
       | .other => []) ++ changeMapToURLValues rest

/-- Origin of the outbound request body chosen by EndBytes (lines 571-587):
the JSON serialization of Data, the form encoding of the flattened Data,
the raw bytes, the raw string, or no body at all for GET/HEAD/DELETE. -/
inductive BodySrc where
  | jsonData (d : List (String × DataVal))
  | formEnc (pairs : List (String × String))
  | rawBytes (b : List Nat)
  | rawString (s : String)
  | noBody
deriving DecidableEq, Repr

/-- The outbound request as assembled by EndBytes before it is handed to the
client (headers applied, query data merged, basic auth and cookies
attached). -/
structure SentRequest where
  method : String
  url : String
  body : BodySrc
  headers : List (String × String)
  queryData : List (String × List String)
  basicAuth : String × String
  cookies : List Cookie
deriving DecidableEq, Repr

/-- Outcome of the dispatch phase of EndBytes: the accumulated errors are
returned with no request made, or the nil request pointer built by an
unrecognized method is dereferenced at req.Header.Set (a runtime panic), or
a request is handed to the client Do call. -/
inductive EndOutcome where
  | shortCircuit (errs : List String)
  | nilDeref
  | sent (req : SentRequest)
deriving DecidableEq, Repr

/-- Content-Type value in force during body resolution: EndBytes defaults
an unset Content-Type header to application/json before the method switch
(lines 567-569). -/
def effectiveContentType (gr : GoReq) : String :=
  if headerGet gr.header "Content-Type" = "" then "application/json"
  else headerGet gr.header "Content-Type"

/-- Header map after the Content-Type defaulting step of EndBytes. -/
def headerAfterDefault (gr : GoReq) : List (String × String) :=
  if headerGet gr.header "Content-Type" = "" then
    setKV gr.header "Content-Type" "application/json"
  else gr.header

/-- EndBytes (lines 556-633) up to the client Do call: check Errors, default
the Content-Type, resolve the body by the method switch, and assemble the
outbound request.  A method outside the six constants leaves req nil and
the header-application loop dereferences it. -/
def GoReq.endBytesDispatch (gr : GoReq) : EndOutcome :=
  if gr.errors ≠ [] then .shortCircuit gr.errors
  else
    let hdr := headerAfterDefault gr
    let ct := effectiveContentType gr
    if gr.method = POST ∨ gr.method = PUT ∨ gr.method = PATCH then
      let body :=
        if ct = "application/json" ∧ gr.data ≠ [] then BodySrc.jsonData gr.data
        else if ct = "application/x-www-form-urlencoded" then
          BodySrc.formEnc (changeMapToURLValues gr.data)
        else if gr.rawBytesData ≠ [] then BodySrc.rawBytes gr.rawBytesData
        else BodySrc.rawString gr.rawStringData
      .sent
        { method := gr.method, url := gr.url, body := body, headers := hdr
        , queryData := gr.queryData, basicAuth := gr.basicAuth, cookies := gr.cookies }
    else if gr.method = GET ∨ gr.method = HEAD ∨ gr.method = DELETE then
      .sent
        { method := gr.method, url := gr.url, body := BodySrc.noBody, headers := hdr
        , queryData := gr.queryData, basicAuth := gr.basicAuth, cookies := gr.cookies }
    else .nilDeref

/-- True exactly when the dispatch phase reached the client Do call. -/
def networkCallMade : EndOutcome → Bool
  | .sent _ => true
  | _ => false

/-- Body of the request handed to the client, when one was. -/
def sentBody : EndOutcome → Option BodySrc
  | .sent r => some r.body
  | _ => none

end Goreq

namespace Goreq

theorem getKV_setKV_self {α : Type} (m : List (String × α)) (k : String) (v : α) :
    getKV (setKV m k v) k = some v := by
  induction m with
  | nil => simp [setKV, getKV]
  | cons kv rest ih =>
      obtain ⟨k1, w⟩ := kv
      by_cases h : k1 = k
      · simp [setKV, getKV, h]
      · simp [setKV, getKV, h, ih]

theorem headerGet_setKV_self (h : List (String × String)) (k v : String) :
    headerGet (setKV h k v) k = v := by
  simp [headerGet, getKV_setKV_self]

theorem sendMapString_errors (gr : GoReq) (content : String) (pc : ParsedContent) :
    (gr.sendMapString content pc).errors = gr.errors := by
  cases pc with
  | json kvs => rfl
  | form pairs =>
      simp only [GoReq.sendMapString]
      split <;> rfl
  | raw => rfl

theorem sendMapString_form_data (gr : GoReq) (content : String)
    (pairs : List (String × List String)) :
    (gr.sendMapString content (.form pairs)).data = applyFormPairs gr.data pairs := by
  simp only [GoReq.sendMapString]
  split <;> rfl

theorem sendRawBytes_eq (gr : GoReq) (bs : List Nat) :
    gr.sendRawBytes bs =
      { gr with
        rawBytesData := bs
        header :=
          if headerGet gr.header "Content-Type" = "" then
            setKV gr.header "Content-Type" "application/octet-stream"
          else gr.header } := by
  simp only [GoReq.sendRawBytes]
  split <;> rfl

end Goreq

namespace Goreq

/-- C1: a GoReq whose Errors list is non-empty when EndBytes (and hence End)
runs makes the terminal call return the accumulated Errors with no response,
and the client Do call is never reached. -/
theorem endBytes_shortCircuit_on_errors (gr : GoReq) (h : gr.errors ≠ []) :
    gr.endBytesDispatch = EndOutcome.shortCircuit gr.errors ∧
      networkCallMade gr.endBytesDispatch = false := by
  have h1 : gr.endBytesDispatch = EndOutcome.shortCircuit gr.errors := by
    simp [GoReq.endBytesDispatch, h]
  exact ⟨h1, by rw [h1]; rfl⟩

/-- Witness for C1 at a builder carrying one accumulated error. -/
theorem endBytes_shortCircuit_on_errors_witness :
    ({ New with errors := ["boom"] } : GoReq).endBytesDispatch =
        EndOutcome.shortCircuit ["boom"] ∧
      networkCallMade ({ New with errors := ["boom"] } : GoReq).endBytesDispatch = false :=
  endBytes_shortCircuit_on_errors { New with errors := ["boom"] } (by decide)

/-- C9: with method GET, HEAD or DELETE and no accumulated errors, the
outbound request built by EndBytes has no body, whatever data was set. -/
theorem get_head_delete_no_body (gr : GoReq) (he : gr.errors = [])
    (hm : gr.method = GET ∨ gr.method = HEAD ∨ gr.method = DELETE) :
    sentBody gr.endBytesDispatch = some BodySrc.noBody := by
  rcases hm with h | h | h <;>
    simp [GoReq.endBytesDispatch, he, h, GET, HEAD, DELETE, POST, PUT, PATCH, sentBody]

/-- GET request carrying structured data, a raw string and raw bytes. -/
def getWithDataEx : GoReq :=
  { New with method := "GET", data := [("a", DataVal.str "b")], rawStringData := "x", rawBytesData := [7] }

/-- Witness for C9: a GET request with structured data, raw string and raw
bytes all set still carries no body. -/
theorem get_head_delete_no_body_witness :
    sentBody getWithDataEx.endBytesDispatch = some BodySrc.noBody :=
  get_head_delete_no_body getWithDataEx rfl (Or.inl rfl)

/-- C10: with an empty Errors list and a method outside the six supported
constants (the empty default included), the method switch of EndBytes builds
no request and the header-application loop dereferences the nil request
pointer instead of returning an error. -/
theorem endBytes_unknown_method_nil_deref (gr : GoReq) (he : gr.errors = [])
    (h1 : gr.method ≠ POST) (h2 : gr.method ≠ PUT) (h3 : gr.method ≠ PATCH)
    (h4 : gr.method ≠ GET) (h5 : gr.method ≠ HEAD) (h6 : gr.method ≠ DELETE) :
    gr.endBytesDispatch = EndOutcome.nilDeref := by
  simp [GoReq.endBytesDispatch, he, h1, h2, h3, h4, h5, h6]

/-- Witness for C10: a freshly constructed GoReq has the empty method and an
empty error list, and its dispatch hits the nil dereference. -/
theorem endBytes_unknown_method_nil_deref_witness :
    New.endBytesDispatch = EndOutcome.nilDeref :=
  endBytes_unknown_method_nil_deref New rfl (by decide) (by decide) (by decide)
    (by decide) (by decide) (by decide)

/-- C8: ContentType expands exactly the eight documented aliases to their
media types and stores any other input verbatim as the Content-Type header
value. -/
theorem contentType_alias_table (gr : GoReq) (s : String)
    (hs : s ∉ ["html", "text", "json", "xml", "urlencoded", "form", "form-data", "stream"]) :
    headerGet (gr.contentType "html").header "Content-Type" = "text/html" ∧
    headerGet (gr.contentType "text").header "Content-Type" = "text/plain" ∧
    headerGet (gr.contentType "json").header "Content-Type" = "application/json" ∧
    headerGet (gr.contentType "xml").header "Content-Type" = "application/xml" ∧
    headerGet (gr.contentType "urlencoded").header "Content-Type" =
      "application/x-www-form-urlencoded" ∧
    headerGet (gr.contentType "form").header "Content-Type" =
      "application/x-www-form-urlencoded" ∧
    headerGet (gr.contentType "form-data").header "Content-Type" =
      "application/x-www-form-urlencoded" ∧
    headerGet (gr.contentType "stream").header "Content-Type" =
      "application/octet-stream" ∧
    headerGet (gr.contentType s).header "Content-Type" = s := by
  simp only [List.mem_cons, List.not_mem_nil, or_false, not_or] at hs
  obtain ⟨n1, n2, n3, n4, n5, n6, n7, n8⟩ := hs
  refine ⟨?_, ?_, ?_, ?_, ?_, ?_, ?_, ?_, ?_⟩ <;>
    simp [GoReq.contentType, ShortContentTypes, getKV, headerGet_setKV_self,
      Ne.symm n1, Ne.symm n2, Ne.symm n3, Ne.symm n4, Ne.symm n5, Ne.symm n6,
      Ne.symm n7, Ne.symm n8]

/-- Witness for C8 at the unrecognized media type application/pdf. -/
theorem contentType_alias_table_witness :
    headerGet (New.contentType "html").header "Content-Type" = "text/html" ∧
    headerGet (New.contentType "text").header "Content-Type" = "text/plain" ∧
    headerGet (New.contentType "json").header "Content-Type" = "application/json" ∧
    headerGet (New.contentType "xml").header "Content-Type" = "application/xml" ∧
    headerGet (New.contentType "urlencoded").header "Content-Type" =
      "application/x-www-form-urlencoded" ∧
    headerGet (New.contentType "form").header "Content-Type" =
      "application/x-www-form-urlencoded" ∧
    headerGet (New.contentType "form-data").header "Content-Type" =
      "application/x-www-form-urlencoded" ∧
    headerGet (New.contentType "stream").header "Content-Type" =
      "application/octet-stream" ∧
    headerGet (New.contentType "application/pdf").header "Content-Type" =
      "application/pdf" :=
  contentType_alias_table New "application/pdf" (by decide)

end Goreq

namespace Goreq

/-- C2: with method POST, PUT or PATCH and no accumulated errors, EndBytes
resolves the request body by the ordered fallback: JSON serialization of
Data when the Content-Type in force is application/json and Data is
non-empty, else the form encoding of Data (arrays expanding to repeated
keys) when the Content-Type in force is form-urlencoded, else the raw bytes
when non-empty, else the raw string. -/
theorem endBytes_body_ordered_fallback (gr : GoReq) (he : gr.errors = [])
    (hm : gr.method = POST ∨ gr.method = PUT ∨ gr.method = PATCH) :
    sentBody gr.endBytesDispatch =
      some
        (if effectiveContentType gr = "application/json" ∧ gr.data ≠ [] then
          BodySrc.jsonData gr.data
        else if effectiveContentType gr = "application/x-www-form-urlencoded" then
          BodySrc.formEnc (changeMapToURLValues gr.data)
        else if gr.rawBytesData ≠ [] then BodySrc.rawBytes gr.rawBytesData
        else BodySrc.rawString gr.rawStringData) := by
  rcases hm with h | h | h <;>
    simp [GoReq.endBytesDispatch, he, h, POST, PUT, PATCH, GET, HEAD, DELETE, sentBody]

/-- POST request with a form content type and an array value in Data. -/
def postFormEx : GoReq :=
  { New with method := "POST", header := [("Content-Type", "application/x-www-form-urlencoded")], data := [("a", DataVal.arr ["1", "2"])] }

/-- Witness for C2: a POST with form content type and Data a ↦ [1, 2] is
sent with the form encoding in which the array expands to repeated keys. -/
theorem endBytes_body_ordered_fallback_witness :
    sentBody postFormEx.endBytesDispatch =
      some (BodySrc.formEnc [("a", "1"), ("a", "2")]) := by
  have h := endBytes_body_ordered_fallback postFormEx rfl (Or.inl rfl)
  rw [h]
  decide

/-- C4: a key set twice through the form branch of SendMapString first
stores the plain string, and the second write stores the two-element array
with the newer value ahead of the prior one, never a scalar overwrite. -/
theorem sendMapString_form_twice_array (gr : GoReq) (c1 c2 k a b : String)
    (h0 : getKV gr.data k = none) :
    getKV (gr.sendMapString c1 (.form [(k, [a])])).data k = some (DataVal.str a) ∧
      getKV ((gr.sendMapString c1 (.form [(k, [a])])).sendMapString c2
          (.form [(k, [b])])).data k = some (DataVal.arr [b, a]) := by
  constructor
  · simp [sendMapString_form_data, applyFormPairs, formStep, h0, getKV_setKV_self]
  · simp [sendMapString_form_data, applyFormPairs, formStep, h0, getKV_setKV_self,
      widenFormValue]

/-- Witness for C4: SendMapString of query=a then query=b on a fresh builder
leaves Data at the key query equal to the array with b ahead of a. -/
theorem sendMapString_form_twice_array_witness :
    getKV (New.sendMapString "query=a" (.form [("query", ["a"])])).data "query" =
        some (DataVal.str "a") ∧
      getKV ((New.sendMapString "query=a" (.form [("query", ["a"])])).sendMapString
          "query=b" (.form [("query", ["b"])])).data "query" =
        some (DataVal.arr ["b", "a"]) :=
  sendMapString_form_twice_array New "query=a" "query=b" "query" "a" "b" (by decide)

/-- Counterexample to C3: two writes to the same key through the JSON branch
of SendMapString leave the scalar second value, not an array holding both;
the body setters do overwrite. -/
theorem send_json_overwrite_counterexample :
    getKV ((New.sendMapString "x" (.json [("a", DataVal.str "1")])).sendMapString "y"
          (.json [("a", DataVal.str "2")])).data "a" = some (DataVal.str "2") ∧
      some (DataVal.str "2") ≠ some (DataVal.arr ["2", "1"]) ∧
      some (DataVal.str "2") ≠ some (DataVal.arr ["1", "2"]) := by
  decide

/-- C3 as amended: a later write to an existing Data key widens it to an
array only through the form branch of SendMapString (new value first); the
JSON branch of SendMapString and SendStruct overwrite the entry with the
new value alone. -/
theorem send_widen_only_form_branch (gr : GoReq) (c1 c2 k newv : String)
    (old v : DataVal) (hk : getKV gr.data k = some old) :
    getKV (gr.sendMapString c1 (.form [(k, [newv])])).data k =
        some (widenFormValue old newv) ∧
      getKV (gr.sendMapString c2 (.json [(k, v)])).data k = some v ∧
      getKV (gr.sendStruct (.ok [(k, v)])).data k = some v := by
  refine ⟨?_, ?_, ?_⟩
  · simp [sendMapString_form_data, applyFormPairs, formStep, hk, getKV_setKV_self]
  · simp [GoReq.sendMapString, applyJsonObj, getKV_setKV_self]
  · simp [GoReq.sendStruct, applyJsonObj, getKV_setKV_self]

/-- Witness for the amended C3 at a builder whose Data holds a ↦ 1. -/
theorem send_widen_only_form_branch_witness :
    getKV (({ New with data := [("a", DataVal.str "1")] } : GoReq).sendMapString "a=2"
          (.form [("a", ["2"])])).data "a" = some (widenFormValue (DataVal.str "1") "2") ∧
      getKV (({ New with data := [("a", DataVal.str "1")] } : GoReq).sendMapString "y"
          (.json [("a", DataVal.str "3")])).data "a" = some (DataVal.str "3") ∧
      getKV (({ New with data := [("a", DataVal.str "1")] } : GoReq).sendStruct
          (.ok [("a", DataVal.str "3")])).data "a" = some (DataVal.str "3") :=
  send_widen_only_form_branch { New with data := [("a", DataVal.str "1")] }
    "a=2" "y" "a" "2" (DataVal.str "1") (DataVal.str "3") (by decide)

end Goreq

namespace Goreq

/-- Counterexample to C5: Reset does not clear the basic-auth pair (nor the
transport configuration or redirect policy); a builder with basic auth set
still carries it after Reset, so Reset does not clear every listed field
except the client. -/
theorem reset_keeps_basicAuth_counterexample :
    ((New.setBasicAuth "u" "p").reset).basicAuth = ("u", "p") ∧
      (("u", "p") : String × String) ≠ ("", "") := by
  exact ⟨rfl, by decide⟩

/-- C5 as amended: Reset clears url, method, headers, structured data, form
data, query parameters, raw string body, raw bytes body, cookies and
errors, and preserves the client as well as the basic-auth pair, the
transport configuration and the redirect policy. -/
theorem reset_clears_builder_state_keeps_rest (gr : GoReq) :
    gr.reset.url = "" ∧ gr.reset.method = "" ∧ gr.reset.header = [] ∧
      gr.reset.data = [] ∧ gr.reset.formData = [] ∧ gr.reset.queryData = [] ∧
      gr.reset.rawStringData = "" ∧ gr.reset.rawBytesData = [] ∧
      gr.reset.cookies = [] ∧ gr.reset.errors = [] ∧
      gr.reset.client = gr.client ∧ gr.reset.basicAuth = gr.basicAuth ∧
      gr.reset.transport = gr.transport ∧
      gr.reset.checkRedirect = gr.checkRedirect := by
  simp [GoReq.reset]

/-- Counterexample to C6: the method setter Get resets the Errors list to
nil, so a builder operation before the terminal call can remove previously
accumulated errors. -/
theorem get_clears_errors_counterexample :
    (New.sendStruct (.err "boom")).errors = ["boom"] ∧
      ((New.sendStruct (.err "boom")).get "http://example.com").errors = [] := by
  exact ⟨rfl, rfl⟩

/-- C6 as amended: every modelled builder operation other than the six
method setters and Reset either leaves the Errors list unchanged or appends
to it, while Get, Post, Head, Put, Delete, Patch and Reset reset it to nil. -/
theorem builder_errors_append_only_except_method_setters (gr : GoReq)
    (u k v s rs content purl : String) (ck : Cookie) (cks : List Cookie)
    (d cfg pol cl : Nat) (b : Bool) (qp : QueryParse) (sp : StructParse)
    (pc : ParsedContent) (bs : List Nat) (perr : Option String) :
    (∃ t, (gr.setHeader k v).errors = gr.errors ++ t) ∧
      (∃ t, (gr.setBasicAuth u v).errors = gr.errors ++ t) ∧
      (∃ t, (gr.addCookie ck).errors = gr.errors ++ t) ∧
      (∃ t, (gr.addCookies cks).errors = gr.errors ++ t) ∧
      (∃ t, (gr.contentType s).errors = gr.errors ++ t) ∧
      (∃ t, (gr.param k v).errors = gr.errors ++ t) ∧
      (∃ t, (gr.queryString qp).errors = gr.errors ++ t) ∧
      (∃ t, (gr.timeout d).errors = gr.errors ++ t) ∧
      (∃ t, (gr.tlsClientConfig cfg).errors = gr.errors ++ t) ∧
      (∃ t, (gr.redirectPolicy pol).errors = gr.errors ++ t) ∧
      (∃ t, (gr.proxy purl perr).errors = gr.errors ++ t) ∧
      (∃ t, (gr.sendStruct sp).errors = gr.errors ++ t) ∧
      (∃ t, (gr.sendMapString content pc).errors = gr.errors ++ t) ∧
      (∃ t, (gr.sendRawString rs).errors = gr.errors ++ t) ∧
      (∃ t, (gr.sendRawBytes bs).errors = gr.errors ++ t) ∧
      (∃ t, (gr.setDebug b).errors = gr.errors ++ t) ∧
      (∃ t, (gr.setClient cl).errors = gr.errors ++ t) ∧
      (gr.get u).errors = [] ∧ (gr.post u).errors = [] ∧
      (gr.head u).errors = [] ∧ (gr.put u).errors = [] ∧
      (gr.delete u).errors = [] ∧ (gr.patch u).errors = [] ∧
      gr.reset.errors = [] := by
  refine ⟨⟨[], by simp [GoReq.setHeader]⟩, ⟨[], by simp [GoReq.setBasicAuth]⟩,
    ⟨[], by simp [GoReq.addCookie]⟩, ⟨[], by simp [GoReq.addCookies]⟩,
    ⟨[], by simp [GoReq.contentType]⟩, ⟨[], by simp [GoReq.param]⟩, ?_,
    ⟨[], by simp [GoReq.timeout]⟩, ⟨[], by simp [GoReq.tlsClientConfig]⟩,
    ⟨[], by simp [GoReq.redirectPolicy]⟩, ?_, ?_,
    ⟨[], by simp [sendMapString_errors]⟩, ⟨[], by simp [GoReq.sendRawString]⟩,
    ⟨[], by rw [sendRawBytes_eq]; simp⟩, ⟨[], by simp [GoReq.setDebug]⟩,
    ⟨[], by simp [GoReq.setClient]⟩, rfl, rfl, rfl, rfl, rfl, rfl, rfl⟩
  · cases qp with
    | json kvs => exact ⟨[], by simp [GoReq.queryString]⟩
    | form pairs => exact ⟨[], by simp [GoReq.queryString]⟩
    | fail e => exact ⟨[e], rfl⟩
  · cases perr with
    | some e => exact ⟨[e], rfl⟩
    | none =>
        refine ⟨[], ?_⟩
        by_cases hp : purl = "" <;> simp [GoReq.proxy, hp]
  · cases sp with
    | err e => exact ⟨[e], rfl⟩
    | ok kvs => exact ⟨[], by simp [GoReq.sendStruct]⟩

/-- Counterexample to C7: the body setter SendRawBytes also writes the
Content-Type header when it is unset, so it does not leave the header map
unchanged. -/
theorem sendRawBytes_sets_header_counterexample :
    headerGet (New.sendRawBytes [1]).header "Content-Type" =
        "application/octet-stream" ∧
      headerGet New.header "Content-Type" = "" := by
  decide

/-- C7 as amended: SendRawBytes touches only its raw-bytes field, and
SendMapString only its data and raw-string fields, leaving every other
field unchanged, except that both default the Content-Type header entry
when it is unset (SendRawBytes always, SendMapString in its form branch);
neither setter touches the Errors list. -/
theorem body_setters_frame (gr : GoReq) (bs : List Nat) (content : String)
    (pc : ParsedContent) :
    (gr.sendRawBytes bs).url = gr.url ∧
      (gr.sendRawBytes bs).method = gr.method ∧
      (gr.sendRawBytes bs).data = gr.data ∧
      (gr.sendRawBytes bs).rawStringData = gr.rawStringData ∧
      (gr.sendRawBytes bs).queryData = gr.queryData ∧
      (gr.sendRawBytes bs).formData = gr.formData ∧
      (gr.sendRawBytes bs).cookies = gr.cookies ∧
      (gr.sendRawBytes bs).errors = gr.errors ∧
      (gr.sendRawBytes bs).client = gr.client ∧
      (gr.sendRawBytes bs).transport = gr.transport ∧
      (gr.sendRawBytes bs).basicAuth = gr.basicAuth ∧
      (gr.sendRawBytes bs).checkRedirect = gr.checkRedirect ∧
      (gr.sendRawBytes bs).rawBytesData = bs ∧
      (gr.sendRawBytes bs).header =
        (if headerGet gr.header "Content-Type" = "" then
          setKV gr.header "Content-Type" "application/octet-stream"
        else gr.header) ∧
      (gr.sendMapString content pc).url = gr.url ∧
      (gr.sendMapString content pc).method = gr.method ∧
      (gr.sendMapString content pc).queryData = gr.queryData ∧
      (gr.sendMapString content pc).formData = gr.formData ∧
      (gr.sendMapString content pc).cookies = gr.cookies ∧
      (gr.sendMapString content pc).errors = gr.errors ∧
      (gr.sendMapString content pc).client = gr.client ∧
      (gr.sendMapString content pc).transport = gr.transport ∧
      (gr.sendMapString content pc).basicAuth = gr.basicAuth ∧
      (gr.sendMapString content pc).checkRedirect = gr.checkRedirect ∧
      (gr.sendMapString content pc).rawBytesData = gr.rawBytesData ∧
      ((gr.sendMapString content pc).header = gr.header ∨
        (gr.sendMapString content pc).header =
          setKV gr.header "Content-Type" "application/x-www-form-urlencoded") := by
  cases pc <;>
    by_cases hh : headerGet gr.header "Content-Type" = "" <;>
      simp [GoReq.sendMapString, GoReq.sendRawBytes, hh]

end Goreq
